import Mathlib

/-
Verification of the lease-versus-own cash-flow engine in `src/app.py`.

The engine consists of three pure functions — `npv`, `ownership_cashflows`,
`leasing_cashflows` — plus the cumulative-sum derivation applied to both
sequences and the module-level conversion of raw UI values into model
parameters.  Money and rates are embedded as rational numbers; year counts
as naturals.  The Python loops carrying mutable state (`outstanding_debt`,
`op_cost`, `lease_payment`) become structurally recursive functions with the
state passed explicitly.
-/

namespace LeaseOwn

/-- Helper for `npv`: running-index recursion mirroring Python's
`enumerate(cashflows)` so that the element at position `t` (counting from the
start index) is divided by `(1 + discount_rate) ^ t`. -/
def npvAux (discount_rate : ℚ) : ℕ → List ℚ → ℚ
  | _, [] => 0
  | t, cf :: rest => cf / (1 + discount_rate) ^ t + npvAux discount_rate (t + 1) rest

/-- Translation of `npv` (app.py lines 69-71):
`sum(cf / ((1 + discount_rate) ** t) for t, cf in enumerate(cashflows))`. -/
def npv (cashflows : List ℚ) (discount_rate : ℚ) : ℚ :=
  npvAux discount_rate 0 cashflows

/-- The ten arguments of `ownership_cashflows` (app.py lines 73-75),
bundled as a record. -/
structure OwnParams where
  CAPEX : ℚ
  debt_ratio : ℚ
  interest_rate : ℚ
  debt_term : ℕ
  n_years : ℕ
  operating_cost : ℚ
  op_cost_growth : ℚ
  depreciation_years : ℕ
  tax_rate : ℚ
  salvage_value : ℚ

/-- `annual_depreciation = CAPEX / depreciation_years` (app.py line 86). -/
def annual_depreciation (p : OwnParams) : ℚ :=
  p.CAPEX / p.depreciation_years

/-- `debt_amount = CAPEX * debt_ratio` (app.py line 87). -/
def debt_amount (p : OwnParams) : ℚ :=
  p.CAPEX * p.debt_ratio

/-- `annual_principal_payment = debt_amount / debt_term if debt_term > 0 else 0`
(app.py line 88). -/
def annual_principal_payment (p : OwnParams) : ℚ :=
  if p.debt_term > 0 then debt_amount p / p.debt_term else 0

/-- The `for t in range(1, n_years + 1)` loop of `ownership_cashflows`
(app.py lines 95-110).  `t` is the current year, the second argument is the
number of iterations still to run (`n_years - t + 1` at entry), and
`outstanding_debt`, `op_cost` are the running state variables. -/
def own_loop (p : OwnParams) : ℕ → ℕ → ℚ → ℚ → List ℚ
  | _, 0, _, _ => []
  | t, fuel + 1, outstanding_debt, op_cost =>
    let interest_expense : ℚ :=
      if outstanding_debt > 0 then outstanding_debt * p.interest_rate else 0
    let financing_cash : ℚ :=
      if t ≤ p.debt_term then annual_principal_payment p + interest_expense
      else interest_expense
    let depreciation : ℚ :=
      if t ≤ p.depreciation_years then annual_depreciation p else 0
    let tax_shield : ℚ := (depreciation + interest_expense) * p.tax_rate
    let net_cash : ℚ := -op_cost - financing_cash + tax_shield
    let net_cash : ℚ :=
      if t = p.n_years then net_cash + p.salvage_value else net_cash
    net_cash ::
      own_loop p (t + 1) fuel
        (if t ≤ p.debt_term then outstanding_debt - annual_principal_payment p
         else outstanding_debt)
        (op_cost * (1 + p.op_cost_growth))

/-- Translation of `ownership_cashflows` (app.py lines 73-112): the year-0
equity outflow followed by the loop over years `1..n_years`, starting from
`outstanding_debt = debt_amount` and `op_cost = operating_cost`. -/
def ownership_cashflows (p : OwnParams) : List ℚ :=
  -p.CAPEX * (1 - p.debt_ratio) ::
    own_loop p 1 p.n_years (debt_amount p) p.operating_cost

/-- The value of the running `outstanding_debt` state after the year-`k`
iteration (`k = 0` is the initial value, app.py lines 89 and 107-108). -/
def outstanding_debt_after (p : OwnParams) : ℕ → ℚ
  | 0 => debt_amount p
  | k + 1 =>
    if k + 1 ≤ p.debt_term then
      outstanding_debt_after p k - annual_principal_payment p
    else outstanding_debt_after p k

/-- The value of the running `op_cost` state used in the year-`t` iteration
(app.py lines 93 and 110): the initial operating cost compounded `t - 1`
times. -/
def op_cost_at (p : OwnParams) (t : ℕ) : ℚ :=
  p.operating_cost * (1 + p.op_cost_growth) ^ (t - 1)

/-- The loop-local `interest_expense` of the year-`t` iteration
(app.py line 96), with the running debt state unfolded. -/
def interest_expense_at (p : OwnParams) (t : ℕ) : ℚ :=
  if outstanding_debt_after p (t - 1) > 0 then
    outstanding_debt_after p (t - 1) * p.interest_rate
  else 0

/-- The loop-local `financing_cash` of the year-`t` iteration
(app.py line 97). -/
def financing_cash_at (p : OwnParams) (t : ℕ) : ℚ :=
  if t ≤ p.debt_term then annual_principal_payment p + interest_expense_at p t
  else interest_expense_at p t

/-- The loop-local `depreciation` of the year-`t` iteration (app.py line 98). -/
def depreciation_at (p : OwnParams) (t : ℕ) : ℚ :=
  if t ≤ p.depreciation_years then annual_depreciation p else 0

/-- The loop-local `tax_shield` of the year-`t` iteration (app.py line 99). -/
def tax_shield_at (p : OwnParams) (t : ℕ) : ℚ :=
  (depreciation_at p t + interest_expense_at p t) * p.tax_rate

/-- The `net_cash` appended for year `t` (app.py lines 101-103), with the
running state unfolded into the `..._at` functions. -/
def net_cash_at (p : OwnParams) (t : ℕ) : ℚ :=
  let net_cash : ℚ :=
    -op_cost_at p t - financing_cash_at p t + tax_shield_at p t
  if t = p.n_years then net_cash + p.salvage_value else net_cash

/-- The `for t in range(1, n_years + 1)` loop of `leasing_cashflows`
(app.py lines 124-127), with the running `lease_payment` state passed
explicitly and the first argument counting the remaining iterations. -/
def lease_loop (lease_escalation tax_rate : ℚ) : ℕ → ℚ → List ℚ
  | 0, _ => []
  | fuel + 1, lease_payment =>
    (-lease_payment + lease_payment * tax_rate) ::
      lease_loop lease_escalation tax_rate fuel
        (lease_payment * (1 + lease_escalation))

/-- Translation of `leasing_cashflows` (app.py lines 114-128): a zero entry
for year 0 followed by the loop over years `1..n_years`. -/
def leasing_cashflows (initial_lease_payment lease_escalation : ℚ)
    (n_years : ℕ) (tax_rate : ℚ) : List ℚ :=
  0 :: lease_loop lease_escalation tax_rate n_years initial_lease_payment

/-- Helper carrying the running total of pandas `cumsum`
(app.py lines 190-191). -/
def cumsum_from (acc : ℚ) : List ℚ → List ℚ
  | [] => []
  | x :: xs => (acc + x) :: cumsum_from (acc + x) xs

/-- Translation of `Series.cumsum` as applied to the two cash-flow columns
(app.py lines 190-191): entry `i` is the sum of entries `0..i`. -/
def cumsum (l : List ℚ) : List ℚ :=
  cumsum_from 0 l

/-- The raw scalar inputs read from the session state (app.py lines 133-145):
display units, i.e. millions for money and percent for rates. -/
structure RawInputs where
  capex_m : ℚ
  salvage_m : ℚ
  op_cost_m : ℚ
  debt_ratio : ℚ
  interest_rate_pct : ℚ
  debt_term : ℕ
  depr_years : ℕ
  tax_rate_pct : ℚ
  lease_payment_m : ℚ
  lease_escalation_pct : ℚ
  op_growth_pct : ℚ
  analysis_years : ℕ
  wacc_pct : ℚ

/-- The fully converted parameter bundle consumed by the engine, one field per
scalar produced by the module-level construction (app.py lines 147-155 plus
the fields passed through unchanged). -/
structure ParameterSet where
  capex : ℚ
  salvage_value : ℚ
  operating_cost : ℚ
  debt_ratio : ℚ
  interest_rate : ℚ
  debt_term_years : ℕ
  depreciation_years : ℕ
  tax_rate : ℚ
  lease_initial_payment : ℚ
  lease_escalation : ℚ
  op_cost_growth : ℚ
  analysis_years : ℕ
  wacc : ℚ

/-- Translation of the module-level parameter construction
(app.py lines 147-155): multiply monetary inputs by 1e6, divide percentage
inputs by 100, pass the rest through.  The source performs no validation
here — the function is total. -/
def build_parameter_set (raw : RawInputs) : ParameterSet where
  capex := raw.capex_m * 1000000
  salvage_value := raw.salvage_m * 1000000
  operating_cost := raw.op_cost_m * 1000000
  debt_ratio := raw.debt_ratio
  interest_rate := raw.interest_rate_pct / 100
  debt_term_years := raw.debt_term
  depreciation_years := raw.depr_years
  tax_rate := raw.tax_rate_pct / 100
  lease_initial_payment := raw.lease_payment_m * 1000000
  lease_escalation := raw.lease_escalation_pct / 100
  op_cost_growth := raw.op_growth_pct / 100
  analysis_years := raw.analysis_years
  wacc := raw.wacc_pct / 100

/-- Modelled from the spec: the domain constraints of section 4.1 ("all
monetary and rate fields non-negative; debtRatio, taxRate within [0,1];
analysisYears, depreciationYears positive"; `debtTermYears ≥ 0` holds by
type).  The source has no construction-time validation, so this predicate is
the spec's words, kept for comparison with what the construction produces. -/
def spec_params_valid (p : ParameterSet) : Prop :=
  0 ≤ p.capex ∧ 0 ≤ p.salvage_value ∧ 0 ≤ p.operating_cost ∧
    0 ≤ p.lease_initial_payment ∧
    0 ≤ p.debt_ratio ∧ p.debt_ratio ≤ 1 ∧ 0 ≤ p.tax_rate ∧ p.tax_rate ≤ 1 ∧
    0 ≤ p.interest_rate ∧ 0 ≤ p.lease_escalation ∧ 0 ≤ p.op_cost_growth ∧
    0 ≤ p.wacc ∧ 1 ≤ p.analysis_years ∧ 1 ≤ p.depreciation_years

instance (p : ParameterSet) : Decidable (spec_params_valid p) := by
  unfold spec_params_valid; infer_instance

/-- The widget bounds the UI enforces on each raw input, read off the
`dual_input` calls (app.py lines 281-331): the only range enforcement the
source performs. -/
def raw_within_ui_bounds (raw : RawInputs) : Prop :=
  50 ≤ raw.capex_m ∧ raw.capex_m ≤ 3000 ∧
    0 ≤ raw.salvage_m ∧ raw.salvage_m ≤ 500 ∧
    1 ≤ raw.op_cost_m ∧ raw.op_cost_m ≤ 100 ∧
    0 ≤ raw.debt_ratio ∧ raw.debt_ratio ≤ 1 ∧
    0 ≤ raw.interest_rate_pct ∧ raw.interest_rate_pct ≤ 20 ∧
    1 ≤ raw.debt_term ∧ raw.debt_term ≤ 30 ∧
    1 ≤ raw.depr_years ∧ raw.depr_years ≤ 30 ∧
    0 ≤ raw.tax_rate_pct ∧ raw.tax_rate_pct ≤ 50 ∧
    1 ≤ raw.lease_payment_m ∧ raw.lease_payment_m ≤ 100 ∧
    0 ≤ raw.lease_escalation_pct ∧ raw.lease_escalation_pct ≤ 10 ∧
    0 ≤ raw.op_growth_pct ∧ raw.op_growth_pct ≤ 10 ∧
    5 ≤ raw.analysis_years ∧ raw.analysis_years ≤ 40 ∧
    0 ≤ raw.wacc_pct ∧ raw.wacc_pct ≤ 20

instance (raw : RawInputs) : Decidable (raw_within_ui_bounds raw) := by
  unfold raw_within_ui_bounds; infer_instance

/-- The leasing loop produces one entry per remaining iteration. -/
lemma lease_loop_length (e τ : ℚ) : ∀ (fuel : ℕ) (pay : ℚ),
    (lease_loop e τ fuel pay).length = fuel
  | 0, _ => rfl
  | fuel + 1, pay => by
    simp [lease_loop, lease_loop_length e τ fuel]

/-- Entry `i` of the leasing loop started at payment `pay` is the net cash of
the `i`-times-escalated payment. -/
lemma lease_loop_getD (e τ : ℚ) : ∀ (fuel i : ℕ) (pay : ℚ), i < fuel →
    (lease_loop e τ fuel pay).getD i 0
      = -(pay * (1 + e) ^ i) + pay * (1 + e) ^ i * τ
  | 0, i, _, hi => absurd hi (Nat.not_lt_zero i)
  | fuel + 1, 0, pay, _ => by
    simp [lease_loop]
  | fuel + 1, i + 1, pay, hi => by
    have ih := lease_loop_getD e τ fuel i (pay * (1 + e)) (by omega)
    simp only [lease_loop, List.getD_cons_succ]
    rw [ih, pow_succ]
    ring

/-- The running-index helper of `npv` computes the index-shifted discounted
sum. -/
lemma npvAux_eq_sum (r : ℚ) : ∀ (l : List ℚ) (t : ℕ),
    npvAux r t l = ∑ i ∈ Finset.range l.length, l.getD i 0 / (1 + r) ^ (t + i)
  | [], t => by simp [npvAux]
  | x :: xs, t => by
    simp only [npvAux, npvAux_eq_sum r xs (t + 1), List.length_cons,
      Finset.sum_range_succ', List.getD_cons_succ, List.getD_cons_zero,
      Nat.add_zero]
    rw [add_comm]
    congr 1
    apply Finset.sum_congr rfl
    intro i _
    congr 2
    omega

/-- Entry `i` of `cumsum_from acc l` is `acc` plus the sum of the first
`i + 1` entries of `l`. -/
lemma cumsum_from_getD : ∀ (l : List ℚ) (acc : ℚ) (i : ℕ), i < l.length →
    (cumsum_from acc l).getD i 0 = acc + (l.take (i + 1)).sum
  | [], _, i, hi => absurd hi (Nat.not_lt_zero i)
  | x :: xs, acc, 0, _ => by
    simp [cumsum_from]
  | x :: xs, acc, i + 1, hi => by
    have ih := cumsum_from_getD xs (acc + x) i (by simpa using hi)
    simp only [cumsum_from, List.getD_cons_succ]
    rw [ih, List.take_succ_cons, List.sum_cons]
    ring

/-- Entry `i` of `cumsum l` is the sum of the first `i + 1` entries of `l`. -/
lemma cumsum_getD (l : List ℚ) (i : ℕ) (hi : i < l.length) :
    (cumsum l).getD i 0 = (l.take (i + 1)).sum := by
  rw [cumsum, cumsum_from_getD l 0 i hi, zero_add]

/-- The cumulative sequence satisfies the running-sum recurrence. -/
lemma cumsum_step (l : List ℚ) (i : ℕ) (h1 : 1 ≤ i) (h2 : i < l.length) :
    (cumsum l).getD i 0 = (cumsum l).getD (i - 1) 0 + l.getD i 0 := by
  obtain ⟨s, rfl⟩ : ∃ s, i = s + 1 := ⟨i - 1, by omega⟩
  rw [Nat.add_sub_cancel, cumsum_getD l (s + 1) h2, cumsum_getD l s (by omega),
    List.sum_take_succ l (s + 1) h2, List.getD_eq_getElem l 0 h2]

/-- The ownership loop produces one entry per remaining iteration. -/
lemma own_loop_length (p : OwnParams) : ∀ (t fuel : ℕ) (od oc : ℚ),
    (own_loop p t fuel od oc).length = fuel
  | _, 0, _, _ => rfl
  | t, fuel + 1, od, oc => by
    simp [own_loop, own_loop_length p (t + 1) fuel]

/-- The ownership sequence has one entry per year `0..n_years`. -/
lemma ownership_length (p : OwnParams) :
    (ownership_cashflows p).length = p.n_years + 1 := by
  simp [ownership_cashflows, own_loop_length]

/-- One debt update of the loop (app.py lines 107-108) advances
`outstanding_debt_after` by one year. -/
lemma outstanding_debt_step (p : OwnParams) (t : ℕ) (ht : 1 ≤ t) :
    (if t ≤ p.debt_term then
        outstanding_debt_after p (t - 1) - annual_principal_payment p
      else outstanding_debt_after p (t - 1))
      = outstanding_debt_after p t := by
  obtain ⟨s, rfl⟩ : ∃ s, t = s + 1 := ⟨t - 1, by omega⟩
  simp [outstanding_debt_after]

/-- One growth update of the loop (app.py line 110) advances `op_cost_at` by
one year. -/
lemma op_cost_at_step (p : OwnParams) (t : ℕ) (ht : 1 ≤ t) :
    op_cost_at p t * (1 + p.op_cost_growth) = op_cost_at p (t + 1) := by
  obtain ⟨s, rfl⟩ : ∃ s, t = s + 1 := ⟨t - 1, by omega⟩
  simp only [op_cost_at, Nat.add_sub_cancel]
  rw [pow_succ]
  ring

/-- Entry `i` of the ownership loop entered at year `t` with the running
state it actually holds at year `t` is the closed-form year-`t + i` net
cash. -/
lemma own_loop_getD (p : OwnParams) : ∀ (fuel t i : ℕ), 1 ≤ t → i < fuel →
    (own_loop p t fuel (outstanding_debt_after p (t - 1))
        (op_cost_at p t)).getD i 0
      = net_cash_at p (t + i)
  | 0, _, i, _, hi => absurd hi (Nat.not_lt_zero i)
  | fuel + 1, t, 0, ht, _ => by
    simp only [own_loop, List.getD_cons_zero, Nat.add_zero]
    rfl
  | fuel + 1, t, i + 1, ht, hi => by
    simp only [own_loop, List.getD_cons_succ]
    rw [outstanding_debt_step p t ht, op_cost_at_step p t ht]
    have ih := own_loop_getD p fuel (t + 1) i (by omega) (by omega)
    simp only [Nat.add_sub_cancel] at ih
    rw [ih]
    congr 1
    omega

/-- Entry `t` of the ownership sequence, for a year `1 ≤ t ≤ n_years`, is the
closed-form year-`t` net cash. -/
lemma ownership_getD (p : OwnParams) (t : ℕ) (h1 : 1 ≤ t)
    (h2 : t ≤ p.n_years) :
    (ownership_cashflows p).getD t 0 = net_cash_at p t := by
  obtain ⟨s, rfl⟩ : ∃ s, t = s + 1 := ⟨t - 1, by omega⟩
  have h := own_loop_getD p p.n_years 1 s le_rfl (by omega)
  simp only [Nat.sub_self] at h
  have hoc : op_cost_at p 1 = p.operating_cost := by simp [op_cost_at]
  have hod : outstanding_debt_after p 0 = debt_amount p := rfl
  rw [ownership_cashflows, List.getD_cons_succ, ← hoc, ← hod, h]
  congr 1
  omega

/-- Closed form of the running debt: the initial amount less one principal
payment per elapsed in-term year. -/
lemma outstanding_debt_closed (p : OwnParams) : ∀ k : ℕ,
    outstanding_debt_after p k
      = debt_amount p - (min k p.debt_term : ℕ) * annual_principal_payment p
  | 0 => by simp [outstanding_debt_after]
  | k + 1 => by
    simp only [outstanding_debt_after]
    rw [outstanding_debt_closed p k]
    by_cases h : k + 1 ≤ p.debt_term
    · rw [if_pos h]
      have h1 : min (k + 1) p.debt_term = k + 1 := by omega
      have h2 : min k p.debt_term = k := by omega
      rw [h1, h2]
      push_cast
      ring
    · rw [if_neg h]
      have h1 : min (k + 1) p.debt_term = p.debt_term := by omega
      have h2 : min k p.debt_term = p.debt_term := by omega
      rw [h1, h2]

/-- With a positive debt term the running debt is exactly zero right after
the year-`debt_term` iteration. -/
lemma outstanding_debt_at_term (p : OwnParams) (h : 0 < p.debt_term) :
    outstanding_debt_after p p.debt_term = 0 := by
  rw [outstanding_debt_closed, min_self, annual_principal_payment, if_pos h]
  have hdt : (p.debt_term : ℚ) ≠ 0 := Nat.cast_ne_zero.mpr (by omega)
  rw [mul_comm, div_mul_cancel₀ _ hdt, sub_self]

/-- With non-negative capex and debt ratio the running debt never goes
negative. -/
lemma outstanding_debt_nonneg (p : OwnParams) (hc : 0 ≤ p.CAPEX)
    (hr : 0 ≤ p.debt_ratio) (k : ℕ) : 0 ≤ outstanding_debt_after p k := by
  have hda : 0 ≤ debt_amount p := mul_nonneg hc hr
  rw [outstanding_debt_closed]
  rcases Nat.eq_zero_or_pos p.debt_term with h0 | hpos
  · simp only [annual_principal_payment, h0]
    norm_num
    exact hda
  · have hdt : (0 : ℚ) < p.debt_term := by exact_mod_cast hpos
    have happ : annual_principal_payment p = debt_amount p / p.debt_term := by
      rw [annual_principal_payment, if_pos hpos]
    have h1 : ((min k p.debt_term : ℕ) : ℚ) ≤ (p.debt_term : ℚ) := by
      exact_mod_cast Nat.min_le_right k p.debt_term
    have h2 : ((min k p.debt_term : ℕ) : ℚ) * (debt_amount p / p.debt_term)
        ≤ (p.debt_term : ℚ) * (debt_amount p / p.debt_term) :=
      mul_le_mul_of_nonneg_right h1 (div_nonneg hda hdt.le)
    have h3 : (p.debt_term : ℚ) * (debt_amount p / p.debt_term)
        = debt_amount p := by
      rw [mul_comm, div_mul_cancel₀ _ hdt.ne']
    rw [happ]
    linarith

/-- The year-`t` net cash with the salvage addition written as an additive
if-term. -/
lemma net_cash_at_eq (p : OwnParams) (t : ℕ) :
    net_cash_at p t
      = -op_cost_at p t - financing_cash_at p t + tax_shield_at p t
        + (if t = p.n_years then p.salvage_value else 0) := by
  simp only [net_cash_at]
  split <;> ring

/-- Changing only the salvage value leaves `debt_amount` unchanged. -/
lemma debt_amount_salvage (p : OwnParams) (s : ℚ) :
    debt_amount { p with salvage_value := s } = debt_amount p := rfl

/-- Changing only the salvage value leaves the principal payment unchanged. -/
lemma annual_principal_payment_salvage (p : OwnParams) (s : ℚ) :
    annual_principal_payment { p with salvage_value := s }
      = annual_principal_payment p := rfl

/-- Changing only the salvage value leaves `annual_depreciation` unchanged. -/
lemma annual_depreciation_salvage (p : OwnParams) (s : ℚ) :
    annual_depreciation { p with salvage_value := s }
      = annual_depreciation p := rfl

/-- Changing only the salvage value leaves the operating cost unchanged. -/
lemma op_cost_at_salvage (p : OwnParams) (s : ℚ) (t : ℕ) :
    op_cost_at { p with salvage_value := s } t = op_cost_at p t := rfl

/-- Changing only the salvage value leaves the running debt unchanged. -/
lemma outstanding_debt_after_salvage (p : OwnParams) (s : ℚ) : ∀ k : ℕ,
    outstanding_debt_after { p with salvage_value := s } k
      = outstanding_debt_after p k
  | 0 => rfl
  | k + 1 => by
    simp only [outstanding_debt_after,
      outstanding_debt_after_salvage p s k]
    rfl

/-- Changing only the salvage value leaves the interest expense unchanged. -/
lemma interest_expense_at_salvage (p : OwnParams) (s : ℚ) (t : ℕ) :
    interest_expense_at { p with salvage_value := s } t
      = interest_expense_at p t := by
  simp only [interest_expense_at, outstanding_debt_after_salvage]

/-- Changing only the salvage value leaves the financing cash unchanged. -/
lemma financing_cash_at_salvage (p : OwnParams) (s : ℚ) (t : ℕ) :
    financing_cash_at { p with salvage_value := s } t
      = financing_cash_at p t := by
  simp only [financing_cash_at, interest_expense_at_salvage,
    annual_principal_payment_salvage]

/-- Changing only the salvage value leaves the depreciation unchanged. -/
lemma depreciation_at_salvage (p : OwnParams) (s : ℚ) (t : ℕ) :
    depreciation_at { p with salvage_value := s } t = depreciation_at p t := rfl

/-- Changing only the salvage value leaves the tax shield unchanged. -/
lemma tax_shield_at_salvage (p : OwnParams) (s : ℚ) (t : ℕ) :
    tax_shield_at { p with salvage_value := s } t = tax_shield_at p t := by
  simp only [tax_shield_at, depreciation_at_salvage, interest_expense_at_salvage]

/-- The updated record's salvage field is the new value. -/
lemma salvage_value_update (p : OwnParams) (s : ℚ) :
    ({ p with salvage_value := s } : OwnParams).salvage_value = s := rfl

/-- The updated record's horizon is unchanged. -/
lemma n_years_update (p : OwnParams) (s : ℚ) :
    ({ p with salvage_value := s } : OwnParams).n_years = p.n_years := rfl

/-- C1: for every parameter set with `analysisYears ≥ 1` the leasing sequence
has length `analysisYears + 1`, its year-0 entry is exactly 0, and its
year-`t` entry for `1 ≤ t ≤ analysisYears` equals
`-leaseInitialPayment * (1 + leaseEscalation) ^ (t - 1) * (1 - taxRate)`. -/
theorem leasing_cashflows_correct (P e τ : ℚ) (n : ℕ) (hn : 1 ≤ n) :
    (leasing_cashflows P e n τ).length = n + 1 ∧
    (leasing_cashflows P e n τ).getD 0 0 = 0 ∧
    ∀ t, 1 ≤ t → t ≤ n →
      (leasing_cashflows P e n τ).getD t 0
        = -P * (1 + e) ^ (t - 1) * (1 - τ) := by
  refine ⟨?_, rfl, ?_⟩
  · simp [leasing_cashflows, lease_loop_length]
  · intro t h1 h2
    obtain ⟨s, rfl⟩ : ∃ s, t = s + 1 := ⟨t - 1, by omega⟩
    rw [leasing_cashflows, List.getD_cons_succ,
      lease_loop_getD e τ n s P (by omega), Nat.add_sub_cancel]
    ring

/-- Witness for `leasing_cashflows_correct` at the spec's concrete leasing
scenario (`leaseInitialPayment = 18e6`, escalation 3%, 20 years, tax 25%). -/
theorem leasing_cashflows_correct_witness :
    (leasing_cashflows 18000000 (3/100) 20 (1/4)).getD 2 0
      = -18000000 * (1 + 3/100) ^ (2 - 1) * (1 - 1/4) :=
  (leasing_cashflows_correct 18000000 (3/100) (1/4) 20 (by norm_num)).2.2 2
    (by norm_num) (by norm_num)

/-- C2: the year-0 entry of the ownership sequence is exactly
`-capex * (1 - debtRatio)`, the equity-funded portion. -/
theorem ownership_year_zero (p : OwnParams) :
    (ownership_cashflows p).getD 0 0 = -p.CAPEX * (1 - p.debt_ratio) := rfl

/-- C3: for any cash-flow sequence and discount rate `r > -1`, `npv` returns
the sum over `t` of `cf[t] / (1 + r) ^ t`, and it returns 0 on the empty
sequence. -/
theorem npv_correct (cashflows : List ℚ) (r : ℚ) (hr : r > -1) :
    npv cashflows r
        = ∑ t ∈ Finset.range cashflows.length,
            cashflows.getD t 0 / (1 + r) ^ t ∧
      npv ([] : List ℚ) r = 0 := by
  refine ⟨?_, rfl⟩
  rw [npv, npvAux_eq_sum]
  simp only [Nat.zero_add]

/-- Witness for `npv_correct` on a concrete two-entry sequence at rate 1. -/
theorem npv_correct_witness :
    npv [2, 4] 1
      = ∑ t ∈ Finset.range ([2, 4] : List ℚ).length,
          ([2, 4] : List ℚ).getD t 0 / (1 + 1) ^ t :=
  (npv_correct [2, 4] 1 (by norm_num)).1

/-- C4: with `0 < debtTermYears ≤ analysisYears` the running debt is exactly
0 after the year-`debtTermYears` iteration, and for every later year within
the horizon the financing component is interest only, with the sequence entry
carrying no principal term. -/
theorem debt_amortizes (p : OwnParams) (h1 : 0 < p.debt_term)
    (h2 : p.debt_term ≤ p.n_years) :
    outstanding_debt_after p p.debt_term = 0 ∧
    ∀ t, p.debt_term < t → t ≤ p.n_years →
      financing_cash_at p t = interest_expense_at p t ∧
      (ownership_cashflows p).getD t 0
        = -op_cost_at p t - interest_expense_at p t + tax_shield_at p t
          + (if t = p.n_years then p.salvage_value else 0) := by
  refine ⟨outstanding_debt_at_term p h1, ?_⟩
  intro t ht1 ht2
  have hfin : financing_cash_at p t = interest_expense_at p t := by
    rw [financing_cash_at, if_neg (by omega)]
  exact ⟨hfin, by rw [ownership_getD p t (by omega) ht2, net_cash_at_eq, hfin]⟩

/-- Witness for `debt_amortizes`: a two-year debt term inside a three-year
horizon, fully amortized after year 2. -/
theorem debt_amortizes_witness :
    outstanding_debt_after ⟨100, 1/2, 1/10, 2, 3, 10, 0, 2, 1/4, 5⟩ 2 = 0 ∧
      financing_cash_at ⟨100, 1/2, 1/10, 2, 3, 10, 0, 2, 1/4, 5⟩ 3
        = interest_expense_at ⟨100, 1/2, 1/10, 2, 3, 10, 0, 2, 1/4, 5⟩ 3 :=
  ⟨(debt_amortizes ⟨100, 1/2, 1/10, 2, 3, 10, 0, 2, 1/4, 5⟩ (by decide)
      (by decide)).1,
    ((debt_amortizes ⟨100, 1/2, 1/10, 2, 3, 10, 0, 2, 1/4, 5⟩ (by decide)
      (by decide)).2 3 (by decide) (by decide)).1⟩

/-- C5: with `debtTermYears = 0` the principal payment is 0, the running debt
is never reduced, and every in-horizon year is charged interest of exactly
`capex * debtRatio * interestRate`, which is nonzero whenever that product is
positive. -/
theorem zero_debt_term_behavior (p : OwnParams) (h0 : p.debt_term = 0)
    (hc : 0 ≤ p.CAPEX) (hr : 0 ≤ p.debt_ratio) :
    annual_principal_payment p = 0 ∧
    (∀ k, outstanding_debt_after p k = p.CAPEX * p.debt_ratio) ∧
    ∀ t, 1 ≤ t → t ≤ p.n_years →
      interest_expense_at p t = p.CAPEX * p.debt_ratio * p.interest_rate ∧
      (0 < p.CAPEX * p.debt_ratio * p.interest_rate →
        interest_expense_at p t ≠ 0) ∧
      (ownership_cashflows p).getD t 0
        = -op_cost_at p t - p.CAPEX * p.debt_ratio * p.interest_rate
          + (depreciation_at p t
              + p.CAPEX * p.debt_ratio * p.interest_rate) * p.tax_rate
          + (if t = p.n_years then p.salvage_value else 0) := by
  have happ : annual_principal_payment p = 0 := by
    rw [annual_principal_payment, if_neg (by omega)]
  have hconst : ∀ k, outstanding_debt_after p k = p.CAPEX * p.debt_ratio := by
    intro k
    induction k with
    | zero => rfl
    | succ k ih =>
      simp only [outstanding_debt_after]
      rw [if_neg (by omega), ih]
  have hie : ∀ t,
      interest_expense_at p t = p.CAPEX * p.debt_ratio * p.interest_rate := by
    intro t
    rw [interest_expense_at, hconst]
    by_cases hpos : p.CAPEX * p.debt_ratio > 0
    · rw [if_pos hpos]
    · rw [if_neg hpos]
      have hz : p.CAPEX * p.debt_ratio = 0 :=
        le_antisymm (not_lt.mp hpos) (mul_nonneg hc hr)
      rw [hz, zero_mul]
  refine ⟨happ, hconst, ?_⟩
  intro t h1 h2
  refine ⟨hie t, fun hpos => by rw [hie t]; exact ne_of_gt hpos, ?_⟩
  rw [ownership_getD p t h1 h2, net_cash_at_eq, financing_cash_at,
    if_neg (by omega), tax_shield_at, hie t]

/-- Witness for `zero_debt_term_behavior`: zero debt term with positive debt
amount, interest charged every year. -/
theorem zero_debt_term_behavior_witness :
    annual_principal_payment ⟨100, 1/2, 1/10, 0, 2, 10, 0, 1, 1/4, 0⟩ = 0 ∧
      interest_expense_at ⟨100, 1/2, 1/10, 0, 2, 10, 0, 1, 1/4, 0⟩ 1
        = 100 * (1/2) * (1/10) :=
  ⟨(zero_debt_term_behavior ⟨100, 1/2, 1/10, 0, 2, 10, 0, 1, 1/4, 0⟩
      (by decide) (by norm_num) (by norm_num)).1,
    ((zero_debt_term_behavior ⟨100, 1/2, 1/10, 0, 2, 10, 0, 1, 1/4, 0⟩
      (by decide) (by norm_num) (by norm_num)).2.2 1 (by decide)
      (by decide)).1⟩

/-- C6: past the depreciation horizon the depreciation component of the tax
shield is 0: the shield reduces to `interestExpense * taxRate`, also in the
sequence entry itself. -/
theorem depreciation_shield_stops (p : OwnParams) :
    ∀ t, p.depreciation_years < t → t ≤ p.n_years →
      depreciation_at p t = 0 ∧
      tax_shield_at p t = interest_expense_at p t * p.tax_rate ∧
      (ownership_cashflows p).getD t 0
        = -op_cost_at p t - financing_cash_at p t
          + interest_expense_at p t * p.tax_rate
          + (if t = p.n_years then p.salvage_value else 0) := by
  intro t h1 h2
  have hdep : depreciation_at p t = 0 := by
    rw [depreciation_at, if_neg (by omega)]
  have hshield : tax_shield_at p t = interest_expense_at p t * p.tax_rate := by
    rw [tax_shield_at, hdep, zero_add]
  exact ⟨hdep, hshield,
    by rw [ownership_getD p t (by omega) h2, net_cash_at_eq, hshield]⟩

/-- Witness for `depreciation_shield_stops`: one depreciation year inside a
three-year horizon, shield reduced to interest only in year 2. -/
theorem depreciation_shield_stops_witness :
    depreciation_at ⟨100, 1/2, 1/10, 2, 3, 10, 0, 1, 1/4, 5⟩ 2 = 0 ∧
      tax_shield_at ⟨100, 1/2, 1/10, 2, 3, 10, 0, 1, 1/4, 5⟩ 2
        = interest_expense_at ⟨100, 1/2, 1/10, 2, 3, 10, 0, 1, 1/4, 5⟩ 2
          * (⟨100, 1/2, 1/10, 2, 3, 10, 0, 1, 1/4, 5⟩ : OwnParams).tax_rate :=
  ⟨(depreciation_shield_stops ⟨100, 1/2, 1/10, 2, 3, 10, 0, 1, 1/4, 5⟩ 2
      (by decide) (by decide)).1,
    (depreciation_shield_stops ⟨100, 1/2, 1/10, 2, 3, 10, 0, 1, 1/4, 5⟩ 2
      (by decide) (by decide)).2.1⟩

/-- A salvage-overridden parameter set's year-`1 ≤ i ≤ n_years` entry, with
all salvage-independent components expressed over the base parameters. -/
lemma ownership_getD_salvage (p : OwnParams) (s : ℚ) (i : ℕ) (h1 : 1 ≤ i)
    (h2 : i ≤ p.n_years) :
    (ownership_cashflows { p with salvage_value := s }).getD i 0
      = -op_cost_at p i - financing_cash_at p i + tax_shield_at p i
        + (if i = p.n_years then s else 0) := by
  rw [ownership_getD { p with salvage_value := s } i h1
      (by rw [n_years_update]; exact h2),
    net_cash_at_eq, op_cost_at_salvage p s i, financing_cash_at_salvage p s i,
    tax_shield_at_salvage p s i, n_years_update p s, salvage_value_update p s]

/-- C7: changing only the salvage value changes no entry before the final
year, and changes the final-year entry by exactly the difference of the two
salvage values. -/
theorem salvage_only_final_year (p : OwnParams) (s1 s2 : ℚ)
    (hn : 1 ≤ p.n_years) :
    (∀ i, i < p.n_years →
      (ownership_cashflows { p with salvage_value := s1 }).getD i 0
        = (ownership_cashflows { p with salvage_value := s2 }).getD i 0) ∧
    (ownership_cashflows { p with salvage_value := s1 }).getD p.n_years 0
      = (ownership_cashflows { p with salvage_value := s2 }).getD p.n_years 0
        + (s1 - s2) := by
  constructor
  · intro i hi
    rcases Nat.eq_zero_or_pos i with rfl | hpos
    · rfl
    · rw [ownership_getD_salvage p s1 i hpos (by omega),
        ownership_getD_salvage p s2 i hpos (by omega),
        if_neg (show ¬ i = p.n_years by omega),
        if_neg (show ¬ i = p.n_years by omega)]
  · rw [ownership_getD_salvage p s1 p.n_years hn le_rfl,
      ownership_getD_salvage p s2 p.n_years hn le_rfl,
      if_pos (rfl : p.n_years = p.n_years),
      if_pos (rfl : p.n_years = p.n_years)]
    ring

/-- Witness for `salvage_only_final_year`: salvage values 7 and 3 agree at
year 1 of a two-year horizon. -/
theorem salvage_only_final_year_witness :
    (ownership_cashflows
        { (⟨100, 1/2, 1/10, 2, 2, 10, 0, 2, 1/4, 0⟩ : OwnParams) with
          salvage_value := 7 }).getD 1 0
      = (ownership_cashflows
          { (⟨100, 1/2, 1/10, 2, 2, 10, 0, 2, 1/4, 0⟩ : OwnParams) with
            salvage_value := 3 }).getD 1 0 :=
  (salvage_only_final_year ⟨100, 1/2, 1/10, 2, 2, 10, 0, 2, 1/4, 0⟩ 7 3
    (by decide)).1 1 (by decide)

/-- C8: for both the ownership and the leasing sequence, the cumulative
sequence starts at the sequence's year-0 entry and satisfies
`cumulative[i] = cumulative[i-1] + sequence[i]` exactly, making
`cumulative[i]` the sum of entries `0..i`. -/
theorem cumulative_recurrence (p : OwnParams) (P e τ : ℚ) :
    (cumsum (ownership_cashflows p)).getD 0 0
        = (ownership_cashflows p).getD 0 0 ∧
      (cumsum (leasing_cashflows P e p.n_years τ)).getD 0 0
        = (leasing_cashflows P e p.n_years τ).getD 0 0 ∧
      (∀ i, 1 ≤ i → i ≤ p.n_years →
        (cumsum (ownership_cashflows p)).getD i 0
            = (cumsum (ownership_cashflows p)).getD (i - 1) 0
              + (ownership_cashflows p).getD i 0 ∧
          (cumsum (ownership_cashflows p)).getD i 0
            = ((ownership_cashflows p).take (i + 1)).sum) ∧
      ∀ i, 1 ≤ i → i ≤ p.n_years →
        (cumsum (leasing_cashflows P e p.n_years τ)).getD i 0
            = (cumsum (leasing_cashflows P e p.n_years τ)).getD (i - 1) 0
              + (leasing_cashflows P e p.n_years τ).getD i 0 ∧
          (cumsum (leasing_cashflows P e p.n_years τ)).getD i 0
            = ((leasing_cashflows P e p.n_years τ).take (i + 1)).sum := by
  have hol : (ownership_cashflows p).length = p.n_years + 1 :=
    ownership_length p
  have hll : (leasing_cashflows P e p.n_years τ).length = p.n_years + 1 := by
    simp [leasing_cashflows, lease_loop_length]
  refine ⟨?_, ?_, ?_, ?_⟩
  · simp [ownership_cashflows, cumsum, cumsum_from]
  · simp [leasing_cashflows, cumsum, cumsum_from]
  · exact fun i h1 h2 =>
      ⟨cumsum_step _ i h1 (by omega), cumsum_getD _ i (by omega)⟩
  · exact fun i h1 h2 =>
      ⟨cumsum_step _ i h1 (by omega), cumsum_getD _ i (by omega)⟩

/-- Witness for `cumulative_recurrence`: the ownership recurrence at index 1
of a two-year horizon. -/
theorem cumulative_recurrence_witness :
    (cumsum (ownership_cashflows ⟨100, 1/2, 1/10, 2, 2, 10, 0, 2, 1/4, 0⟩)).getD 1 0
      = (cumsum (ownership_cashflows ⟨100, 1/2, 1/10, 2, 2, 10, 0, 2, 1/4, 0⟩)).getD 0 0
        + (ownership_cashflows ⟨100, 1/2, 1/10, 2, 2, 10, 0, 2, 1/4, 0⟩).getD 1 0 :=
  ((cumulative_recurrence ⟨100, 1/2, 1/10, 2, 2, 10, 0, 2, 1/4, 0⟩ 18 0
      (1/4)).2.2.1 1 (by decide) (by decide)).1

/-- C10: with non-negative capex, debt ratio and interest rate, the running
debt at the start of year `t` equals
`capex * debtRatio - min (t-1) debtTermYears * annualPrincipalPayment`, is
never negative, and the interest expense is non-negative and equals the
unguarded product `outstandingDebt * interestRate`, so the `> 0` guard never
masks a positive balance. -/
theorem debt_state_invariant (p : OwnParams) (hc : 0 ≤ p.CAPEX)
    (hr : 0 ≤ p.debt_ratio) (hi : 0 ≤ p.interest_rate) :
    (∀ t, 1 ≤ t →
      outstanding_debt_after p (t - 1)
          = p.CAPEX * p.debt_ratio
            - (min (t - 1) p.debt_term : ℕ) * annual_principal_payment p ∧
        0 ≤ outstanding_debt_after p (t - 1)) ∧
    ∀ t, 0 ≤ interest_expense_at p t ∧
      interest_expense_at p t
        = outstanding_debt_after p (t - 1) * p.interest_rate := by
  constructor
  · exact fun t _ =>
      ⟨by rw [outstanding_debt_closed, debt_amount],
        outstanding_debt_nonneg p hc hr _⟩
  · intro t
    rw [interest_expense_at]
    by_cases hpos : outstanding_debt_after p (t - 1) > 0
    · rw [if_pos hpos]
      exact ⟨mul_nonneg hpos.le hi, rfl⟩
    · rw [if_neg hpos]
      have h0 : outstanding_debt_after p (t - 1) = 0 :=
        le_antisymm (not_lt.mp hpos) (outstanding_debt_nonneg p hc hr _)
      rw [h0, zero_mul]
      exact ⟨le_rfl, rfl⟩

/-- Witness for `debt_state_invariant` at year 1 of a concrete scenario. -/
theorem debt_state_invariant_witness :
    0 ≤ interest_expense_at ⟨100, 1/2, 1/10, 2, 3, 10, 0, 2, 1/4, 5⟩ 1 ∧
      0 ≤ outstanding_debt_after ⟨100, 1/2, 1/10, 2, 3, 10, 0, 2, 1/4, 5⟩ 0 :=
  ⟨((debt_state_invariant ⟨100, 1/2, 1/10, 2, 3, 10, 0, 2, 1/4, 5⟩
      (by norm_num) (by norm_num) (by norm_num)).2 1).1,
    ((debt_state_invariant ⟨100, 1/2, 1/10, 2, 3, 10, 0, 2, 1/4, 5⟩
      (by norm_num) (by norm_num) (by norm_num)).1 1 (by decide)).2⟩

/-- C9 counterexample: the module-level parameter construction performs no
validation.  On raw inputs whose debt ratio is 3/2 — outside the stated
[0,1] domain — it succeeds, returning a parameter set that violates the
spec's domain constraints, instead of failing with a validation error. -/
theorem construction_accepts_invalid :
    (build_parameter_set
        ⟨300, 40, 12, 3/2, 4, 10, 10, 25, 18, 3, 2, 20, 6⟩).debt_ratio = 3/2 ∧
      ¬ spec_params_valid
        (build_parameter_set ⟨300, 40, 12, 3/2, 4, 10, 10, 25, 18, 3, 2, 20, 6⟩) := by
  refine ⟨rfl, ?_⟩
  intro h
  obtain ⟨-, -, -, -, -, h6, -⟩ := h
  norm_num [build_parameter_set] at h6

/-- C9 amended: the construction never fails; instead, any raw inputs within
the UI widget bounds convert to a parameter set satisfying all of the spec's
domain constraints. -/
theorem ui_bounds_give_valid_params (raw : RawInputs)
    (h : raw_within_ui_bounds raw) :
    spec_params_valid (build_parameter_set raw) := by
  obtain ⟨h1, h2, h3, h4, h5, h6, h7, h8, h9, h10, h11, h12, h13, h14, h15,
    h16, h17, h18, h19, h20, h21, h22, h23, h24, h25, h26⟩ := h
  refine ⟨?_, ?_, ?_, ?_, h7, h8, ?_, ?_, ?_, ?_, ?_, ?_, ?_, h13⟩
  · show (0 : ℚ) ≤ raw.capex_m * 1000000
    exact mul_nonneg (by linarith) (by norm_num)
  · show (0 : ℚ) ≤ raw.salvage_m * 1000000
    exact mul_nonneg h3 (by norm_num)
  · show (0 : ℚ) ≤ raw.op_cost_m * 1000000
    exact mul_nonneg (by linarith) (by norm_num)
  · show (0 : ℚ) ≤ raw.lease_payment_m * 1000000
    exact mul_nonneg (by linarith) (by norm_num)
  · show (0 : ℚ) ≤ raw.tax_rate_pct / 100
    exact div_nonneg h15 (by norm_num)
  · show raw.tax_rate_pct / 100 ≤ 1
    rw [div_le_one (by norm_num : (0 : ℚ) < 100)]
    linarith
  · show (0 : ℚ) ≤ raw.interest_rate_pct / 100
    exact div_nonneg h9 (by norm_num)
  · show (0 : ℚ) ≤ raw.lease_escalation_pct / 100
    exact div_nonneg h19 (by norm_num)
  · show (0 : ℚ) ≤ raw.op_growth_pct / 100
    exact div_nonneg h21 (by norm_num)
  · show (0 : ℚ) ≤ raw.wacc_pct / 100
    exact div_nonneg h25 (by norm_num)
  · show 1 ≤ raw.analysis_years
    omega

/-- Witness for `ui_bounds_give_valid_params` at the source's default input
values. -/
theorem ui_bounds_give_valid_params_witness :
    spec_params_valid
      (build_parameter_set ⟨300, 40, 12, 3/5, 4, 10, 10, 25, 18, 3, 2, 20, 6⟩) :=
  ui_bounds_give_valid_params _ (by norm_num [raw_within_ui_bounds])

end LeaseOwn
